import Mathlib

/-!
Verification of the core of `ictmon` (src/main.rs), a sliding-window
message-rate monitor.  Time is modelled in integer milliseconds (`ℕ`):
all durations in the source are whole milliseconds, so `Instant` and
`Duration` arithmetic is exact in this model.  The tps value printed by
`print_tps` is an `f64` quotient of two integers; we model it in `ℚ`,
with `Option ℚ` so that a division by zero (which in `f64` yields a
non-finite value, never `0`) is represented by `none`.
-/

namespace Ictmon

/-- Source constant `MOVING_AVG_INTERVAL_MS: u64 = 60000` — window length. -/
def MOVING_AVG_INTERVAL_MS : ℕ := 60000

/-- Source constant `INITIAL_SLEEP_MS: u64 = 1000` — warm-up sleep before the evaluator starts. -/
def INITIAL_SLEEP_MS : ℕ := 1000

/-- Source constant `UPDATE_INTERVAL_MS: u64 = 1000` — evaluation tick period. -/
def UPDATE_INTERVAL_MS : ℕ := 1000

/-- Source constant `PORT: u16 = 5560` — default port. -/
def PORT : ℕ := 5560

/-- Source constant `ADDRESS` (lazy_static) — default address. -/
def ADDRESS : String := "localhost"

/-- The eviction loop of `interval_task`:
`while queue.len() > 0 && queue.front().unwrap() < &window_start { queue.pop_front(); }`.
Pops the front while it is strictly below `windowStart`; stops at the first
front element `≥ windowStart` (which is retained) or when the queue is empty. -/
def pruneQueue (windowStart : ℕ) : List ℕ → List ℕ
  | [] => []
  | t :: rest => if t < windowStart then pruneQueue windowStart rest else t :: rest

/-- The elements removed by the eviction loop of `interval_task`, in eviction order. -/
def evictedBy (windowStart : ℕ) : List ℕ → List ℕ
  | [] => []
  | t :: rest => if t < windowStart then t :: evictedBy windowStart rest else []

/-- Fuel-counted version of the eviction loop: each loop iteration consumes one
unit of fuel; `none` means the fuel ran out before the loop reached its exit
condition. Used to express that the loop performs at most `len` iterations. -/
def pruneFuel (windowStart : ℕ) : ℕ → List ℕ → Option (List ℕ)
  | _, [] => some []
  | fuel, t :: rest =>
    if t < windowStart then
      match fuel with
      | 0 => none
      | f + 1 => pruneFuel windowStart f rest
    else some (t :: rest)

/-- `uptime_ms = (instant - init).as_secs() * 1000 + (instant - init).subsec_millis()`:
with instants in whole milliseconds this is exactly the elapsed milliseconds. -/
def uptimeMs (instant init : ℕ) : ℕ := instant - init

/-- The averaging denominator in milliseconds: `min(MOVING_AVG_INTERVAL_MS, uptime_ms)`. -/
def effectiveDenominatorMs (uptime : ℕ) : ℕ := min MOVING_AVG_INTERVAL_MS uptime

/-- The tps computation of `interval_task`:
`queue.len() as f64 / (min(MOVING_AVG_INTERVAL_MS, uptime_ms) as f64 / 1000_f64)`.
There is no zero guard in the source; an `f64` division by zero yields a
non-finite value (`inf` or `NaN`), modelled here as `none`. -/
def computeTps (len uptime : ℕ) : Option ℚ :=
  let d : ℚ := (effectiveDenominatorMs uptime : ℚ) / 1000
  if d = 0 then none else some ((len : ℚ) / d)

/-- One body of `interval_task.for_each` at tick instant `T` (ms): compute
`window_start = instant - interval`, prune the queue, then compute the tps from
the remaining count and the uptime.  Returns the pruned queue and the tps value. -/
def evaluateTick (init T : ℕ) (queue : List ℕ) : List ℕ × Option ℚ :=
  let windowStart := T - MOVING_AVG_INTERVAL_MS
  let pruned := pruneQueue windowStart queue
  (pruned, computeTps pruned.length (uptimeMs T init))

/-- Tick instants of the evaluator: `init` is captured, then the main thread
sleeps `INITIAL_SLEEP_MS`, then `Interval::new_interval(UPDATE_INTERVAL_MS)`
is created and fires its first tick one period after creation.  Hence every
tick instant `T` satisfies `init + INITIAL_SLEEP_MS + UPDATE_INTERVAL_MS ≤ T`. -/
def isTickInstant (init T : ℕ) : Prop :=
  init + INITIAL_SLEEP_MS + UPDATE_INTERVAL_MS ≤ T

instance (init T : ℕ) : Decidable (isTickInstant init T) := by
  unfold isTickInstant; infer_instance

/-- One event seen by the `poller` loop: either a successful
`subscriber.recv_msg(0)` whose value carries the arrival instant taken right
after the receive, or a receive error with its message. -/
abbrev RecvEvent := Except String ℕ

/-- The `poller` recorder loop of `main` over a finite prefix of receive
events: on each successful receive the current instant is pushed at the tail
of the queue; on a receive error `unwrap()` panics with the error as
diagnostic, which ends this task only — modelled as `Except.error` carrying
the diagnostic, with the rest of the trace never processed by the now-dead
task.  On the multithreaded tokio 0.1 runtime the panic does NOT terminate
the process: the main thread stays blocked in `shutdown_on_idle().wait()`
and `interval_task` keeps ticking on the remaining workers over the frozen
queue.  `Except.ok` means the loop is still running with the given queue
(the real loop never returns). -/
def pollerRun (queue : List ℕ) : List RecvEvent → Except String (List ℕ)
  | [] => .ok queue
  | .error e :: _ => .error e
  | .ok t :: rest => pollerRun (queue ++ [t]) rest

/-- Shared state of the monitor: the current reading of the monotonic clock
and the shared `VecDeque<Instant>` of arrival timestamps (front first). -/
structure MonState where
  clock : ℕ
  queue : List ℕ
deriving DecidableEq, Repr

/-- One interleaved step of the two tasks on the shared state:
the recorder appends `Instant::now()` (the current monotonic instant, which
never decreases) at the tail; the evaluator pops one element from the front
(one iteration of the eviction loop); time may also simply pass. -/
inductive MonStep : MonState → MonState → Prop
  | append (s : MonState) (now : ℕ) (h : s.clock ≤ now) :
      MonStep s ⟨now, s.queue ++ [now]⟩
  | popFront (s : MonState) (t : ℕ) (rest : List ℕ) (h : s.queue = t :: rest) :
      MonStep s ⟨s.clock, rest⟩
  | tick (s : MonState) (now : ℕ) (h : s.clock ≤ now) :
      MonStep s ⟨now, s.queue⟩

/-- Reachability from the initial state (empty queue) by any interleaving of
recorder appends, evaluator pops, and clock advances. -/
def MonReachable (init : ℕ) (s : MonState) : Prop :=
  Relation.ReflTransGen MonStep ⟨init, []⟩ s

/-- The parsed command-line arguments (struct `Arguments` in the source). -/
structure Arguments where
  address : String
  port : ℕ
deriving DecidableEq, Repr

/-- Outcome of `Arguments::new`: a parsed value, a usage `Err`, or a process
abort (the `unwrap()` on `args[2].parse::<u16>()`). -/
inductive ArgOutcome
  | ok (a : Arguments)
  | err (msg : String)
  | aborted (msg : String)
deriving DecidableEq, Repr

/-- ASCII digit test on a character, by its code point. -/
def isAsciiDigit (c : Char) : Bool :=
  48 ≤ c.toNat && c.toNat ≤ 57

/-- Semantics of Rust `str::parse::<u16>()`: an optional leading `+`, then at
least one ASCII digit, and the value must fit in `u16` (≤ 65535); anything
else is a parse error (`none`). -/
def parseU16 (s : String) : Option ℕ :=
  let digits : List Char :=
    match s.data with
    | '+' :: rest => rest
    | cs => cs
  if digits.isEmpty then none
  else if digits.all isAsciiDigit then
    let v := digits.foldl (fun acc c => acc * 10 + (c.toNat - 48)) 0
    if v ≤ 65535 then some v else none
  else none

/-- `Arguments::new` from the source: a 1-element argument vector (program
name only) yields the defaults, a 3-element vector takes `args[1]` as the
address and `args[2].parse::<u16>().unwrap()` as the port (aborting the
process if the parse fails), and any other length yields the usage `Err`. -/
def Arguments.new (args : List String) : ArgOutcome :=
  match args.length with
  | 1 => .ok ⟨ADDRESS, PORT⟩
  | 3 =>
    match parseU16 (args.getD 2 "") with
    | some p => .ok ⟨args.getD 1 "", p⟩
    | none => .aborted "called `Result::unwrap()` on an `Err` value"
  | _ => .err ("Wrong number of arguments provided. Usage: ./ictmon <IP> <ZMQ-Port>")

/-- The full evaluator tick as run in a process configured by `a`: the
closure in `interval_task` captures only the shared queue, `init`, and the
compile-time constants — nothing derived from the parsed arguments — so the
parameter `a` is unused, exactly as in the source. -/
def runEvaluateTick (_a : Arguments) (init T : ℕ) (queue : List ℕ) :
    List ℕ × Option ℚ :=
  evaluateTick init T queue

end Ictmon

namespace Ictmon

/-- Helper: the eviction loop splits the queue into the evicted prefix and the kept suffix. -/
theorem evicted_append_prune (ws : ℕ) (l : List ℕ) :
    evictedBy ws l ++ pruneQueue ws l = l := by
  induction l with
  | nil => simp [evictedBy, pruneQueue]
  | cons t rest ih =>
    by_cases h : t < ws
    · simp [evictedBy, pruneQueue, h, ih]
    · simp [evictedBy, pruneQueue, h]

/-- Helper: every evicted element is strictly below the window start. -/
theorem evicted_lt (ws : ℕ) (l : List ℕ) : ∀ x ∈ evictedBy ws l, x < ws := by
  induction l with
  | nil => simp [evictedBy]
  | cons t rest ih =>
    by_cases h : t < ws
    · simp only [evictedBy, if_pos h, List.mem_cons]
      rintro x (rfl | hx)
      · exact h
      · exact ih x hx
    · simp [evictedBy, h]

/-- Helper: on a sorted queue, every element kept by the eviction loop is `≥` the window start. -/
theorem prune_ge (ws : ℕ) (l : List ℕ) (hs : l.Sorted (· ≤ ·)) :
    ∀ x ∈ pruneQueue ws l, ws ≤ x := by
  induction l with
  | nil => simp [pruneQueue]
  | cons t rest ih =>
    rw [List.sorted_cons] at hs
    by_cases h : t < ws
    · simpa [pruneQueue, h] using ih hs.2
    · simp only [pruneQueue, if_neg h, List.mem_cons]
      rintro x (rfl | hx)
      · exact Nat.le_of_not_lt h
      · exact le_trans (Nat.le_of_not_lt h) (hs.1 x hx)

/-- C1 (counterexample): with `window_length = 60000` and evaluation instant
`T = 60000`, a buffer holding the single timestamp `0 = T - window_length`
yields count `N = 1` from the code's prune-and-count, while the number of
timestamps in the half-open interval `(T - window_length, T]` is `0`; so the
count the code uses is not the `(T - window_length, T]` count. -/
theorem window_count_strict_boundary_cex :
    (pruneQueue (60000 - MOVING_AVG_INTERVAL_MS) [0]).length = 1 ∧
      ([0].countP (fun x => decide (60000 - MOVING_AVG_INTERVAL_MS < x) &&
        decide (x ≤ 60000))) = 0 ∧
      (pruneQueue (60000 - MOVING_AVG_INTERVAL_MS) [0]).length ≠
        ([0].countP (fun x => decide (60000 - MOVING_AVG_INTERVAL_MS < x) &&
          decide (x ≤ 60000))) := by
  refine ⟨?_, ?_, ?_⟩ <;> decide

/-- C1 (amended): for every sorted buffer of recorded timestamps all `≤ T`,
the count used for the rate at instant `T` equals the number of timestamps in
the CLOSED interval `[T - window_length, T]`; a timestamp exactly equal to
`T - window_length` IS counted. -/
theorem window_count_closed_interval (T : ℕ) (l : List ℕ)
    (hs : l.Sorted (· ≤ ·)) (hb : ∀ x ∈ l, x ≤ T) :
    (pruneQueue (T - MOVING_AVG_INTERVAL_MS) l).length =
      l.countP (fun x => decide (T - MOVING_AVG_INTERVAL_MS ≤ x) &&
        decide (x ≤ T)) := by
  induction l with
  | nil => simp [pruneQueue]
  | cons t rest ih =>
    rw [List.sorted_cons] at hs
    have hbt : t ≤ T := hb t (List.mem_cons_self t rest)
    have hbr : ∀ x ∈ rest, x ≤ T := fun x hx => hb x (List.mem_cons_of_mem t hx)
    by_cases h : t < T - MOVING_AVG_INTERVAL_MS
    · rw [pruneQueue, if_pos h, List.countP_cons]
      have hnot : ¬ (T - MOVING_AVG_INTERVAL_MS ≤ t) := Nat.not_le_of_lt h
      simp only [hnot, decide_eq_false, Bool.false_and, if_false, Nat.add_zero]
      exact ih hs.2 hbr
    · rw [pruneQueue, if_neg h]
      have hall : ∀ x ∈ t :: rest,
          (fun x => decide (T - MOVING_AVG_INTERVAL_MS ≤ x) &&
            decide (x ≤ T)) x = true := by
        intro x hx
        rcases List.mem_cons.mp hx with rfl | hx
        · simp [Nat.le_of_not_lt h, hbt]
        · have h1 : T - MOVING_AVG_INTERVAL_MS ≤ x :=
            le_trans (Nat.le_of_not_lt h) (hs.1 x hx)
          simp [h1, hbr x hx]
      rw [List.countP_eq_length.mpr hall]

/-- C1 (amended, witness): the closed-interval count theorem at `T = 60000`
on the sorted buffer `[0, 30000, 60000]`, all of whose timestamps are `≤ T`;
the code counts all three, including the boundary timestamp `0`. -/
theorem window_count_closed_interval_witness :
    (pruneQueue (60000 - MOVING_AVG_INTERVAL_MS) [0, 30000, 60000]).length =
      [0, 30000, 60000].countP (fun x => decide (60000 - MOVING_AVG_INTERVAL_MS ≤ x) &&
        decide (x ≤ 60000)) :=
  window_count_closed_interval 60000 [0, 30000, 60000] (by decide)
    (by intro x hx; fin_cases hx <;> decide)

/-- C2: after the prune pass at instant `T` on a sorted buffer, every
remaining element is `≥ T - window_length`, every evicted element was
`< T - window_length`, and the loop removed exactly a prefix of the buffer
(it stopped at the first front element `≥ T - window_length`, which is
retained — in particular a timestamp exactly at the boundary stays). -/
theorem prune_pass_eviction (T : ℕ) (l : List ℕ) (hs : l.Sorted (· ≤ ·)) :
    (∀ x ∈ pruneQueue (T - MOVING_AVG_INTERVAL_MS) l, T - MOVING_AVG_INTERVAL_MS ≤ x) ∧
      (∀ x ∈ evictedBy (T - MOVING_AVG_INTERVAL_MS) l, x < T - MOVING_AVG_INTERVAL_MS) ∧
      evictedBy (T - MOVING_AVG_INTERVAL_MS) l ++ pruneQueue (T - MOVING_AVG_INTERVAL_MS) l = l :=
  ⟨prune_ge _ l hs, evicted_lt _ l, evicted_append_prune _ l⟩

/-- C2 (witness): the prune pass at `T = 61000` (window start `1000`) on the
sorted buffer `[500, 1000, 2000]` keeps `[1000, 2000]` and evicts `[500]`. -/
theorem prune_pass_eviction_witness :
    (∀ x ∈ pruneQueue (61000 - MOVING_AVG_INTERVAL_MS) [500, 1000, 2000],
        61000 - MOVING_AVG_INTERVAL_MS ≤ x) ∧
      (∀ x ∈ evictedBy (61000 - MOVING_AVG_INTERVAL_MS) [500, 1000, 2000],
        x < 61000 - MOVING_AVG_INTERVAL_MS) ∧
      evictedBy (61000 - MOVING_AVG_INTERVAL_MS) [500, 1000, 2000] ++
        pruneQueue (61000 - MOVING_AVG_INTERVAL_MS) [500, 1000, 2000] = [500, 1000, 2000] :=
  prune_pass_eviction 61000 [500, 1000, 2000] (by decide)

/-- C9: the eviction loop terminates on every finite buffer within
`len(buffer)` iterations: with fuel equal to the buffer length the fuelled
loop reaches its exit condition (never runs out of fuel) and computes the
same result as the loop, and the number of evicted elements plus the number
of remaining elements is the original length. -/
theorem prune_loop_terminates (ws : ℕ) (l : List ℕ) :
    pruneFuel ws l.length l = some (pruneQueue ws l) ∧
      (evictedBy ws l).length + (pruneQueue ws l).length = l.length := by
  constructor
  · induction l with
    | nil => simp [pruneFuel, pruneQueue]
    | cons t rest ih =>
      by_cases h : t < ws
      · simpa [pruneFuel, pruneQueue, h] using ih
      · simp [pruneFuel, pruneQueue, h]
  · conv_rhs => rw [← evicted_append_prune ws l]
    simp

/-- Helper: for a positive uptime the denominator is nonzero and the tps is
the plain quotient. -/
theorem computeTps_pos (len uptime : ℕ) (h : 0 < uptime) :
    computeTps len uptime =
      some ((len : ℚ) / ((min MOVING_AVG_INTERVAL_MS uptime : ℕ) / (1000 : ℚ))) := by
  have hmin : 0 < min MOVING_AVG_INTERVAL_MS uptime :=
    lt_min (by norm_num [MOVING_AVG_INTERVAL_MS]) h
  have hd : ((min MOVING_AVG_INTERVAL_MS uptime : ℕ) : ℚ) / 1000 ≠ 0 := by
    have : ((min MOVING_AVG_INTERVAL_MS uptime : ℕ) : ℚ) ≠ 0 := by
      exact_mod_cast Nat.pos_iff_ne_zero.mp hmin
    positivity
  simp only [computeTps, effectiveDenominatorMs]
  rw [if_neg hd]

/-- C3: the averaging denominator is `min(window_length, uptime)` in seconds:
for every count `n` and positive uptime `E` (ms), if `E < window_length` the
tps is `n / (E / 1000)` (the denominator is the elapsed time, not the window
length), and if `E ≥ window_length` it is `n / (window_length / 1000)`. -/
theorem warmup_denominator (n E : ℕ) (hE : 0 < E) :
    (E < MOVING_AVG_INTERVAL_MS →
        computeTps n E = some ((n : ℚ) / ((E : ℚ) / 1000))) ∧
      (MOVING_AVG_INTERVAL_MS ≤ E →
        computeTps n E = some ((n : ℚ) / ((MOVING_AVG_INTERVAL_MS : ℕ) / (1000 : ℚ)))) := by
  constructor
  · intro hlt
    rw [computeTps_pos n E hE, min_eq_right (le_of_lt hlt)]
  · intro hge
    rw [computeTps_pos n E hE, min_eq_left hge]

/-- C3 (witness): window 60 s, elapsed 10 s, 5 recorded arrivals: the
denominator is 10 s and the reported rate is `0.5`. -/
theorem warmup_denominator_witness :
    computeTps 5 10000 = some (1 / 2 : ℚ) := by
  have h := (warmup_denominator 5 10000 (by norm_num)).1
    (by norm_num [MOVING_AVG_INTERVAL_MS])
  rw [h]
  norm_num

/-- C4 (counterexample): at zero effective elapsed time the source divides by
zero with no guard: with 5 recorded arrivals and uptime `0` the division
yields a non-finite `f64` value (modelled `none`), not the value `0`. -/
theorem zero_denominator_no_guard_cex :
    computeTps 5 0 = none ∧ computeTps 5 0 ≠ some 0 := by
  constructor
  · simp [computeTps, effectiveDenominatorMs]
  · intro h
    simp [computeTps, effectiveDenominatorMs] at h

/-- C4 (amended): the source has no zero-denominator guard, but a zero
denominator is unreachable: every evaluator tick instant `T` is at least
`INITIAL_SLEEP_MS + UPDATE_INTERVAL_MS` past `init`, so the uptime is
positive and the reported tps is the well-defined finite quotient. -/
theorem tick_denominator_positive (init T n : ℕ) (h : isTickInstant init T) :
    0 < uptimeMs T init ∧
      computeTps n (uptimeMs T init) =
        some ((n : ℚ) / ((min MOVING_AVG_INTERVAL_MS (uptimeMs T init) : ℕ) / (1000 : ℚ))) := by
  have hpos : 0 < uptimeMs T init := by
    simp only [isTickInstant, INITIAL_SLEEP_MS, UPDATE_INTERVAL_MS] at h
    unfold uptimeMs
    omega
  exact ⟨hpos, computeTps_pos n _ hpos⟩

/-- C4 (amended, witness): `init = 0`, first possible tick `T = 2000`, 5
arrivals: the uptime is positive and the tps is `5 / 2`. -/
theorem tick_denominator_positive_witness :
    0 < uptimeMs 2000 0 ∧
      computeTps 5 (uptimeMs 2000 0) =
        some ((5 : ℚ) / ((min MOVING_AVG_INTERVAL_MS (uptimeMs 2000 0) : ℕ) / (1000 : ℚ))) :=
  tick_denominator_positive 0 2000 5 (by decide)

/-- C5: at every tick instant with an empty buffer the evaluation reports a
rate of exactly `0` (the numerator is `0` and the denominator is positive, so
no division-by-zero occurs). -/
theorem empty_buffer_zero_rate (init T : ℕ) (h : isTickInstant init T) :
    evaluateTick init T [] = ([], some 0) := by
  have h2 := (tick_denominator_positive init T 0 h).2
  simp only [evaluateTick, pruneQueue, List.length_nil]
  rw [h2]
  norm_num

/-- C5 (witness): empty buffer at tick instant `T = 2000` with `init = 0`:
the reported rate is `0`. -/
theorem empty_buffer_zero_rate_witness :
    evaluateTick 0 2000 [] = ([], some 0) :=
  empty_buffer_zero_rate 0 2000 (by decide)

/-- Helper: the poller run ends at the first failing receive: for any trace
whose first failure is `e`, the run ends in `Except.error e` — the recorder
task records nothing further and the events after the failure are never
processed by it. -/
theorem recv_error_ends_poller (q : List ℕ) (pre : List RecvEvent) (e : String)
    (post : List RecvEvent) (hpre : ∀ x ∈ pre, ∃ t, x = Except.ok t) :
    pollerRun q (pre ++ Except.error e :: post) = Except.error e := by
  induction pre generalizing q with
  | nil => simp [pollerRun]
  | cons x rest ih =>
    obtain ⟨t, rfl⟩ := hpre x (List.mem_cons_self x rest)
    simpa [pollerRun] using
      ih (q ++ [t]) (fun y hy => hpre y (List.mem_cons_of_mem _ hy))

/-- C6 (code bug): a failing receive makes `unwrap()` panic inside the
`poller` future, which on the multithreaded tokio 0.1 runtime ends only that
task with a diagnostic — the process does not terminate.  Concretely: after
the receive trace `[ok at 1500 ms, error "boom"]` the recorder task is dead
with the queue frozen at `[1500]`, yet the evaluator keeps producing samples
over that queue, reporting `1/3` tps at tick 3000 ms and the misleading zero
rate at tick 62000 ms once the stale timestamp ages out of the window — the
silent continuation the fatal-on-transport-fault policy is meant to prevent. -/
theorem recv_error_kills_poller_only :
    pollerRun [] [Except.ok 1500, Except.error "boom"] = Except.error "boom" ∧
      evaluateTick 0 3000 [1500] = ([1500], some (1 / 3 : ℚ)) ∧
      evaluateTick 0 62000 [1500] = ([], some 0) := by
  refine ⟨rfl, ?_, ?_⟩ <;>
    · simp only [evaluateTick, pruneQueue, computeTps, effectiveDenominatorMs,
        uptimeMs, MOVING_AVG_INTERVAL_MS]
      norm_num

/-- Helper invariant for C7: in every reachable state the queue is sorted
(non-decreasing) and bounded by the current clock reading. -/
theorem monReachable_inv (init : ℕ) (s : MonState) (h : MonReachable init s) :
    s.queue.Sorted (· ≤ ·) ∧ ∀ x ∈ s.queue, x ≤ s.clock := by
  induction h with
  | refl => simp
  | tail _ hstep ih =>
    obtain ⟨hsort, hbound⟩ := ih
    cases hstep with
    | append now hle =>
      refine ⟨List.pairwise_append.mpr ⟨hsort, ?_, ?_⟩, ?_⟩
      · simp
      · intro x hx y hy
        rw [List.mem_singleton] at hy
        subst hy
        exact le_trans (hbound x hx) hle
      · intro x hx
        rcases List.mem_append.mp hx with hx | hx
        · exact le_trans (hbound x hx) hle
        · rw [List.mem_singleton] at hx
          subst hx; exact le_refl _
    | popFront t rest heq =>
      rw [heq] at hsort hbound
      rw [List.sorted_cons] at hsort
      exact ⟨hsort.2, fun x hx => hbound x (List.mem_cons_of_mem t hx)⟩
    | tick now hle =>
      exact ⟨hsort, fun x hx => le_trans (hbound x hx) hle⟩

/-- C7: in every state reachable by any interleaving of recorder appends
(each pushing the current monotonic instant at the tail) and evaluator
front-pops, the timestamp buffer is non-decreasing in time. -/
theorem buffer_sorted_invariant (init : ℕ) (s : MonState)
    (h : MonReachable init s) : s.queue.Sorted (· ≤ ·) :=
  (monReachable_inv init s h).1

/-- C7 (witness): the concrete reachable state obtained from clock `0` by
appending at instants `3` and `5` and then popping the front has the sorted
queue `[5]`. -/
theorem buffer_sorted_invariant_witness :
    (MonState.mk 5 [5]).queue.Sorted (· ≤ ·) :=
  buffer_sorted_invariant 0 ⟨5, [5]⟩
    (Relation.ReflTransGen.tail
      (Relation.ReflTransGen.tail
        (Relation.ReflTransGen.tail Relation.ReflTransGen.refl
          (MonStep.append ⟨0, []⟩ 3 (by decide)))
        (MonStep.append ⟨3, [3]⟩ 5 (by decide)))
      (MonStep.popFront ⟨5, [3, 5]⟩ 3 [5] rfl))

/-- C8: `Arguments::new` yields `Ok` with the defaults (`"localhost"`, 5560)
exactly on a 1-element vector; on a 3-element vector it yields `Ok` with the
given address and parsed port when the port parses as `u16`, and aborts the
process (the `unwrap()` panic) when it does not; every other length yields
the usage `Err`. -/
theorem arguments_new_cases (args : List String) :
    (args.length = 1 → Arguments.new args = .ok ⟨ADDRESS, PORT⟩) ∧
      (args.length = 3 →
        (∀ p, parseU16 (args.getD 2 "") = some p →
          Arguments.new args = .ok ⟨args.getD 1 "", p⟩) ∧
        (parseU16 (args.getD 2 "") = none →
          Arguments.new args =
            .aborted "called `Result::unwrap()` on an `Err` value")) ∧
      (args.length ≠ 1 → args.length ≠ 3 →
        Arguments.new args =
          .err "Wrong number of arguments provided. Usage: ./ictmon <IP> <ZMQ-Port>") := by
  refine ⟨?_, ?_, ?_⟩
  · intro h1
    simp [Arguments.new, h1]
  · intro h3
    constructor
    · intro p hp
      simp only [Arguments.new, h3, hp]
    · intro hp
      simp only [Arguments.new, h3, hp]
  · intro h1 h3
    unfold Arguments.new
    rcases hlen : args.length with _ | _ | _ | _ | n
    · rfl
    · exact absurd hlen h1
    · rfl
    · exact absurd hlen h3
    · rfl

/-- C8 (witness): the three concrete outcomes — defaults for `["ictmon"]`,
parsed port for `["ictmon", "10.0.0.1", "9000"]`, abort for a non-numeric
port, and the usage error for a 2-element vector. -/
theorem arguments_new_cases_witness :
    Arguments.new ["ictmon"] = .ok ⟨ADDRESS, PORT⟩ ∧
      Arguments.new ["ictmon", "10.0.0.1", "9000"] = .ok ⟨"10.0.0.1", 9000⟩ ∧
      Arguments.new ["ictmon", "10.0.0.1", "port"] =
        .aborted "called `Result::unwrap()` on an `Err` value" ∧
      Arguments.new ["ictmon", "10.0.0.1"] =
        .err "Wrong number of arguments provided. Usage: ./ictmon <IP> <ZMQ-Port>" :=
  ⟨(arguments_new_cases ["ictmon"]).1 rfl,
    ((arguments_new_cases ["ictmon", "10.0.0.1", "9000"]).2.1 rfl).1 9000 (by decide),
    ((arguments_new_cases ["ictmon", "10.0.0.1", "port"]).2.1 rfl).2 (by decide),
    (arguments_new_cases ["ictmon", "10.0.0.1"]).2.2 (by decide) (by decide)⟩

/-- C10: the window length, tick period, and warm-up delay are the
compile-time constants 60000 ms, 1000 ms, and 1000 ms; the parsed arguments
hold only an address and a port, and the evaluator's output at any instant on
any timestamp history is the same whatever arguments the process was started
with — two runs with the same history report the same rate samples. -/
theorem constants_and_determinism :
    MOVING_AVG_INTERVAL_MS = 60000 ∧ UPDATE_INTERVAL_MS = 1000 ∧
      INITIAL_SLEEP_MS = 1000 ∧
      (∀ a₁ a₂ : Arguments, ∀ init T : ℕ, ∀ queue : List ℕ,
        runEvaluateTick a₁ init T queue = runEvaluateTick a₂ init T queue) :=
  ⟨rfl, rfl, rfl, fun _ _ _ _ _ => rfl⟩

end Ictmon
